import Mathlib

/-!
Verification development for the OpenOA metadata/requirements subsystem
(`openoa/schema/metadata.py`).

The Python code is shallowly embedded as follows:

* A Python `dict` with string keys is an association list in insertion order
  (`pyInsert` rewrites an existing key in place and appends a new key at the
  end; `pyLookup` finds the first entry for a key), matching CPython's
  insertion-ordered dictionaries.
* A Python `set` of strings is a `Finset String`.  Where the source builds a
  `set(...)` and then iterates over it (the touched-family keys of the
  frequency result), iteration order is unspecified in Python; the embedding
  fixes the deterministic order of first occurrence (`dedupFirst`), which only
  affects the ordering of result entries, never the key/value content.
* Python exceptions become the `PyError` type and fallible code returns
  `Except PyError _`.  The source file never defines custom exception
  classes: it raises the builtins `KeyError` (implicitly, on dict lookup),
  `ValueError`, `FileExistsError`, and `AttributeError`.
* `pathlib` paths are abstracted to their suffix (the only property the code
  inspects), and the file system is an explicit function from paths to
  optionally-present parsed documents.
-/

/-- A Python `dict` update: rewrite the value of an existing key in place,
append a fresh key at the end, as CPython's insertion-ordered dicts do. -/
def pyInsert {V : Type} (d : List (String × V)) (k : String) (v : V) :
    List (String × V) :=
  match d with
  | [] => [(k, v)]
  | (k', v') :: rest => if k' = k then (k', v) :: rest else (k', v') :: pyInsert rest k v

/-- A Python `dict` lookup: the value of the first entry carrying the key. -/
def pyLookup {V : Type} (d : List (String × V)) (k : String) : Option V :=
  match d with
  | [] => none
  | (k', v) :: rest => if k' = k then some v else pyLookup rest k

/-- The keys of a Python `dict`, in insertion order. -/
def pyKeys {V : Type} (d : List (String × V)) : List String :=
  d.map Prod.fst

/-- A Python `dict` built by inserting the given key/value pairs in order
(the semantics of a dict comprehension or dict literal with possibly
repeated keys: a later pair overwrites an earlier one in place). -/
def pyDictOf {V : Type} (pairs : List (String × V)) : List (String × V) :=
  pairs.foldl (fun d kv => pyInsert d kv.1 kv.2) []

/-- Deterministic model of iterating over a Python `set` built from a list:
each element once, in order of first occurrence. -/
def dedupFirst : List String → List String
  | [] => []
  | x :: xs => x :: (dedupFirst xs).filter (fun y => y != x)

/-- Decidable equality for `Except`, so that concrete runs of the embedded
fallible functions can be checked by `decide`. -/
instance {ε α : Type} [DecidableEq ε] [DecidableEq α] : DecidableEq (Except ε α) :=
  fun a b =>
    match a, b with
    | .error e, .error e' =>
      if h : e = e' then isTrue (congrArg Except.error h)
      else isFalse (fun hc => h (Except.error.inj hc))
    | .error _, .ok _ => isFalse (fun hc => Except.noConfusion hc)
    | .ok _, .error _ => isFalse (fun hc => Except.noConfusion hc)
    | .ok v, .ok v' =>
      if h : v = v' then isTrue (congrArg Except.ok h)
      else isFalse (fun hc => h (Except.ok.inj hc))

/-- The Python exceptions actually raised by `openoa/schema/metadata.py`:
`KeyError` from `ANALYSIS_REQUIREMENTS[key]`, `ValueError` from
`determine_analysis_requirements` / `PlantMetaData.load`, and
`FileExistsError` from `PlantMetaData.from_json` / `from_yaml`.  The file
defines no custom exception classes. -/
inductive PyError where
  | keyError (key : String)
  | valueError (msg : String)
  | fileExistsError (path : String)
deriving DecidableEq

/-- One family entry of `ANALYSIS_REQUIREMENTS`: the per-family dict with the
keys `"columns"`, optionally `"conditional_columns"`, and `"freq"`
(`metadata.py` lines 24-73). -/
structure FamilyRequirement where
  columns : List String
  conditional_columns : List (String × List String) := []
  freq : List String
deriving DecidableEq

/-- An analysis entry of the catalog: family name to its requirement. -/
abbrev AnalysisEntry := List (String × FamilyRequirement)

/-- The catalog type: analysis name to its per-family requirements. -/
abbrev Requirements := List (String × AnalysisEntry)

/-- Frequency aliases accepted for "at least monthly" (`metadata.py` line 20). -/
def _at_least_monthly : List String :=
  ["M", "MS", "W", "D", "H", "T", "min", "S", "L", "ms", "U", "us", "N"]

/-- Frequency aliases accepted for "at least daily" (`metadata.py` line 21). -/
def _at_least_daily : List String :=
  ["D", "H", "T", "min", "S", "L", "ms", "U", "us", "N"]

/-- Frequency aliases accepted for "at least hourly" (`metadata.py` line 22). -/
def _at_least_hourly : List String :=
  ["H", "T", "min", "S", "L", "ms", "U", "us", "N"]

/-- The static requirement catalog (`metadata.py` lines 24-73). -/
def ANALYSIS_REQUIREMENTS : Requirements :=
  [ ("MonteCarloAEP",
      [ ("meter", { columns := ["MMTR_SupWh"], freq := _at_least_monthly }),
        ("curtail",
          { columns := ["IAVL_DnWh", "IAVL_ExtPwrDnWh"], freq := _at_least_monthly }),
        ("reanalysis",
          { columns := ["WMETR_HorWdSpd", "WMETR_AirDen"],
            conditional_columns :=
              [ ("reg_temperature", ["WMETR_EnvTmp"]),
                ("reg_wind_direction", ["WMETR_HorWdSpdU", "WMETR_HorWdSpdV"]) ],
            freq := _at_least_monthly }) ]),
    ("TurbineLongTermGrossEnergy",
      [ ("scada",
          { columns := ["asset_id", "WMET_HorWdSpd", "WTUR_W"], freq := _at_least_daily }),
        ("reanalysis",
          { columns := ["WMETR_HorWdSpd", "WMETR_HorWdDir", "WMETR_AirDen"],
            freq := _at_least_daily }) ]),
    ("ElectricalLosses",
      [ ("scada", { columns := ["asset_id", "WTUR_W"], freq := _at_least_daily }),
        ("meter", { columns := ["MMTR_SupWh"], freq := _at_least_monthly }) ]),
    ("WakeLosses",
      [ ("scada",
          { columns := ["asset_id", "WMET_HorWdSpd", "WMET_HorWdDir", "WTUR_W"],
            freq := _at_least_hourly }),
        ("reanalysis",
          { columns := ["WMETR_HorWdSpd", "WMETR_HorWdDir"], freq := _at_least_hourly }) ]) ]

/-- The dict comprehension `{key: ANALYSIS_REQUIREMENTS[key] for key in analysis_type}`
(`metadata.py` line 96, and the non-wildcard branch of line 852): looked up in
order, the first missing key raising `KeyError`. -/
def buildRequirements (table : Requirements) :
    List String → Requirements → Except PyError Requirements
  | [], acc => .ok acc
  | n :: rest, acc =>
    match pyLookup table n with
    | none => .error (.keyError n)
    | some v => buildRequirements table rest (pyInsert acc n v)

/-- The tuple `("scada", "meter", "tower", "curtail", "reanalysis", "asset")`
(`metadata.py` line 98). -/
def categories : List String :=
  ["scada", "meter", "tower", "curtail", "reanalysis", "asset"]

/-- The expression `r.get(cat, {}).get("columns", [])` (`metadata.py` line 101). -/
def catColumns (entry : AnalysisEntry) (cat : String) : List String :=
  match pyLookup entry cat with
  | some fr => fr.columns
  | none => []

/-- One value of the column block of `determine_analysis_requirements`
(`metadata.py` lines 100-103): `set(itertools.chain(*[...]))`, the set of the
chained mandatory column lists of every selected analysis for one category.
Note the source never reads `conditional_columns` here. -/
def colUnion (reqs : Requirements) (cat : String) : Finset String :=
  ((reqs.map fun kv => catColumns kv.2 cat).flatten).toFinset

/-- The dict comprehension of `metadata.py` lines 99-104 followed by the
empty-set filter of line 105. -/
def columnRequirementsOf (reqs : Requirements) : List (String × Finset String) :=
  (categories.map fun cat => (cat, colUnion reqs cat)).filter
    (fun kv => decide (kv.2 ≠ ∅))

/-- The nested comprehension
`{key: {name: value["freq"] for name, value in values.items()} for key, values in requirements.items()}`
(`metadata.py` lines 107-110 and 855-858). -/
def famFreqs (reqs : Requirements) : List (String × List (String × List String)) :=
  reqs.map fun kv => (kv.1, kv.2.map fun fv => (fv.1, fv.2.freq))

/-- The touched-family key set
`set(itertools.chain.from_iterable([[*val] for val in frequency.values()]))`
(`metadata.py` lines 111-114 and 859-864), iterated in order of first
occurrence. -/
def touchedFamilies (ff : List (String × List (String × List String))) : List String :=
  dedupFirst ((ff.map fun kv => pyKeys kv.2).flatten)

/-- The seed dict `{k: [] for k in ...}` (`metadata.py` lines 111-114): the
Python empty-list sentinel (meaning "no constraint seen yet") is modelled as
`none`, a seeded set as `some s`; the two are distinguishable in Python
because `set(...) == []` is always `False`. -/
def initFreq (touched : List String) : List (String × Option (Finset String)) :=
  touched.map fun k => (k, none)

/-- The inner loop `for name, req in vals.items()` of the frequency block
(`metadata.py` lines 116-121 and 866-871): a missing key in
`frequency_requirements[name]` would raise `KeyError`; an empty-list sentinel
is replaced by `set(req)`; otherwise the stored set is intersected with
`req`. -/
def freqInner (d : List (String × Option (Finset String))) :
    List (String × List String) → Except PyError (List (String × Option (Finset String)))
  | [] => .ok d
  | (name, req) :: rest =>
    match pyLookup d name with
    | none => .error (.keyError name)
    | some none => freqInner (pyInsert d name (some req.toFinset)) rest
    | some (some s) => freqInner (pyInsert d name (some (s ∩ req.toFinset))) rest

/-- The outer loop `for vals in frequency.values()` of the frequency block
(`metadata.py` lines 115-121 and 865-871). -/
def freqOuter (d : List (String × Option (Finset String))) :
    List (String × List (String × List String)) →
      Except PyError (List (String × Option (Finset String)))
  | [] => .ok d
  | (_, fams) :: rest =>
    match freqInner d fams with
    | .error e => .error e
    | .ok d' => freqOuter d' rest

/-- The whole frequency block (`metadata.py` lines 106-121), shared verbatim
with `PlantMetaData.frequency_requirements` (lines 855-872), where the source
duplicates the identical algorithm. -/
def freqRequirementsOf (reqs : Requirements) :
    Except PyError (List (String × Option (Finset String))) :=
  freqOuter (initFreq (touchedFamilies (famFreqs reqs))) (famFreqs reqs)

/-- The possible return shapes of `determine_analysis_requirements`: a column
dict, a frequency dict, or the pair of both. -/
inductive ReqResult where
  | columnsRes (m : List (String × Finset String))
  | frequencyRes (m : List (String × Option (Finset String)))
  | bothRes (c : List (String × Finset String)) (f : List (String × Option (Finset String)))
deriving DecidableEq

/-- `determine_analysis_requirements` (`metadata.py` lines 76-128),
parameterised by the catalog table it reads.  The requirements dict is built
first (line 96 raises `KeyError` for an unknown analysis name no matter what
`which` is); the column and/or frequency blocks run depending on `which`; an
unrecognised `which` raises `ValueError` (line 128).  The `str` overload of
`analysis_type` (line 94-95) wraps a single name into a one-element list, so
the embedding takes the list form. -/
def determine_analysis_requirements_over (table : Requirements) (which : String)
    (analysis_type : List String) : Except PyError ReqResult :=
  match buildRequirements table analysis_type [] with
  | .error e => .error e
  | .ok requirements =>
    if which = "both" then
      match freqRequirementsOf requirements with
      | .error e => .error e
      | .ok f => .ok (.bothRes (columnRequirementsOf requirements) f)
    else if which = "columns" then .ok (.columnsRes (columnRequirementsOf requirements))
    else if which = "frequency" then
      match freqRequirementsOf requirements with
      | .error e => .error e
      | .ok f => .ok (.frequencyRes f)
    else .error (.valueError "`which` must be one of 'columns', 'frequency', or 'both'.")

/-- `determine_analysis_requirements` applied to the module-level
`ANALYSIS_REQUIREMENTS` table, exactly as the source function reads it. -/
def determine_analysis_requirements (which : String) (analysis_type : List String) :
    Except PyError ReqResult :=
  determine_analysis_requirements_over ANALYSIS_REQUIREMENTS which analysis_type

/-- `SCADAMetaData` (`metadata.py` lines 180-273): the eight caller-overridable
column-name fields plus the configured frequency, with the source defaults.
The non-`init` members `name`, `WTUR_SupWh`, `dtypes` and `units` are fixed
constants the caller can never change; `WTUR_SupWh` appears below as the
constant last entry of `col_map`. -/
structure SCADAMetaData where
  time : String := "time"
  asset_id : String := "asset_id"
  WTUR_W : String := "WTUR_W"
  WMET_HorWdSpd : String := "WMET_HorWdSpd"
  WMET_HorWdDir : String := "WMET_HorWdDir"
  WTUR_TurSt : String := "WTUR_TurSt"
  WROT_BlPthAngVal : String := "WROT_BlPthAngVal"
  WMET_EnvTmp : String := "WMET_EnvTmp"
  frequency : String := "10T"
deriving DecidableEq

/-- The fixed, non-overridable `WTUR_SupWh` member (`metadata.py` line 229). -/
def SCADAMetaData.WTUR_SupWh : String := "WTUR_SupWh"

/-- `SCADAMetaData.__attrs_post_init__`, first half (`metadata.py` lines
262-272): the derived semantic-field to actual-column-name dict, in source
insertion order, ending with the fixed `WTUR_SupWh` entry. -/
def SCADAMetaData.col_map (m : SCADAMetaData) : List (String × String) :=
  [ ("time", m.time),
    ("asset_id", m.asset_id),
    ("WTUR_W", m.WTUR_W),
    ("WMET_HorWdSpd", m.WMET_HorWdSpd),
    ("WMET_HorWdDir", m.WMET_HorWdDir),
    ("WTUR_TurSt", m.WTUR_TurSt),
    ("WROT_BlPthAngVal", m.WROT_BlPthAngVal),
    ("WMET_EnvTmp", m.WMET_EnvTmp),
    ("WTUR_SupWh", SCADAMetaData.WTUR_SupWh) ]

/-- `SCADAMetaData.__attrs_post_init__`, second half (`metadata.py` line 273):
the dict comprehension `{v: k for k, v in self.col_map.items()}`; a duplicated
actual column name makes a later pair overwrite an earlier one. -/
def SCADAMetaData.col_map_reversed (m : SCADAMetaData) : List (String × String) :=
  pyDictOf (m.col_map.map fun kv => (kv.2, kv.1))

/-- The caller-suppliable part of a `SCADAMetaData` input dict: `none` models
an absent key (`FromDictMixin.from_dict` only forwards keys that are present,
`metadata.py` lines 154-159; every field has a default, so nothing is
required and construction always succeeds). -/
structure SCADAInput where
  time : Option String := none
  asset_id : Option String := none
  WTUR_W : Option String := none
  WMET_HorWdSpd : Option String := none
  WMET_HorWdDir : Option String := none
  WTUR_TurSt : Option String := none
  WROT_BlPthAngVal : Option String := none
  WMET_EnvTmp : Option String := none
  frequency : Option String := none
deriving DecidableEq

/-- `SCADAMetaData.from_dict` via `FromDictMixin` (`metadata.py` lines
143-172): supplied keys override, absent keys fall back to the defaults. -/
def SCADAMetaData.from_dict (d : SCADAInput) : SCADAMetaData :=
  { time := d.time.getD "time",
    asset_id := d.asset_id.getD "asset_id",
    WTUR_W := d.WTUR_W.getD "WTUR_W",
    WMET_HorWdSpd := d.WMET_HorWdSpd.getD "WMET_HorWdSpd",
    WMET_HorWdDir := d.WMET_HorWdDir.getD "WMET_HorWdDir",
    WTUR_TurSt := d.WTUR_TurSt.getD "WTUR_TurSt",
    WROT_BlPthAngVal := d.WROT_BlPthAngVal.getD "WROT_BlPthAngVal",
    WMET_EnvTmp := d.WMET_EnvTmp.getD "WMET_EnvTmp",
    frequency := d.frequency.getD "10T" }

/-- `MeterMetaData` (`metadata.py` lines 276-327). -/
structure MeterMetaData where
  time : String := "time"
  MMTR_SupWh : String := "MMTR_SupWh"
  frequency : String := "10T"
deriving DecidableEq

/-- `MeterMetaData.__attrs_post_init__` (`metadata.py` lines 323-327). -/
def MeterMetaData.col_map (m : MeterMetaData) : List (String × String) :=
  [("time", m.time), ("MMTR_SupWh", m.MMTR_SupWh)]

/-- Input dict for `MeterMetaData.from_dict`. -/
structure MeterInput where
  time : Option String := none
  MMTR_SupWh : Option String := none
  frequency : Option String := none
deriving DecidableEq

/-- `MeterMetaData.from_dict` via `FromDictMixin`. -/
def MeterMetaData.from_dict (d : MeterInput) : MeterMetaData :=
  { time := d.time.getD "time",
    MMTR_SupWh := d.MMTR_SupWh.getD "MMTR_SupWh",
    frequency := d.frequency.getD "10T" }

/-- `TowerMetaData` (`metadata.py` lines 330-380). -/
structure TowerMetaData where
  time : String := "time"
  asset_id : String := "asset_id"
  frequency : String := "10T"
deriving DecidableEq

/-- `TowerMetaData.__attrs_post_init__` (`metadata.py` lines 376-380). -/
def TowerMetaData.col_map (m : TowerMetaData) : List (String × String) :=
  [("time", m.time), ("asset_id", m.asset_id)]

/-- Input dict for `TowerMetaData.from_dict`. -/
structure TowerInput where
  time : Option String := none
  asset_id : Option String := none
  frequency : Option String := none
deriving DecidableEq

/-- `TowerMetaData.from_dict` via `FromDictMixin`. -/
def TowerMetaData.from_dict (d : TowerInput) : TowerMetaData :=
  { time := d.time.getD "time",
    asset_id := d.asset_id.getD "asset_id",
    frequency := d.frequency.getD "10T" }

/-- `StatusMetaData` (`metadata.py` lines 383-451). -/
structure StatusMetaData where
  time : String := "time"
  asset_id : String := "asset_id"
  status_id : String := "status_id"
  status_code : String := "status_code"
  status_text : String := "status_text"
  frequency : String := "10T"
deriving DecidableEq

/-- `StatusMetaData.__attrs_post_init__` (`metadata.py` lines 444-451). -/
def StatusMetaData.col_map (m : StatusMetaData) : List (String × String) :=
  [ ("time", m.time),
    ("asset_id", m.asset_id),
    ("status_id", m.status_id),
    ("status_code", m.status_code),
    ("status_text", m.status_text) ]

/-- Input dict for `StatusMetaData.from_dict`. -/
structure StatusInput where
  time : Option String := none
  asset_id : Option String := none
  status_id : Option String := none
  status_code : Option String := none
  status_text : Option String := none
  frequency : Option String := none
deriving DecidableEq

/-- `StatusMetaData.from_dict` via `FromDictMixin`. -/
def StatusMetaData.from_dict (d : StatusInput) : StatusMetaData :=
  { time := d.time.getD "time",
    asset_id := d.asset_id.getD "asset_id",
    status_id := d.status_id.getD "status_id",
    status_code := d.status_code.getD "status_code",
    status_text := d.status_text.getD "status_text",
    frequency := d.frequency.getD "10T" }

/-- `CurtailMetaData` (`metadata.py` lines 454-510). -/
structure CurtailMetaData where
  time : String := "time"
  IAVL_ExtPwrDnWh : String := "IAVL_ExtPwrDnWh"
  IAVL_DnWh : String := "IAVL_DnWh"
  frequency : String := "10T"
deriving DecidableEq

/-- `CurtailMetaData.__attrs_post_init__` (`metadata.py` lines 505-510). -/
def CurtailMetaData.col_map (m : CurtailMetaData) : List (String × String) :=
  [ ("time", m.time),
    ("IAVL_ExtPwrDnWh", m.IAVL_ExtPwrDnWh),
    ("IAVL_DnWh", m.IAVL_DnWh) ]

/-- Input dict for `CurtailMetaData.from_dict`. -/
structure CurtailInput where
  time : Option String := none
  IAVL_ExtPwrDnWh : Option String := none
  IAVL_DnWh : Option String := none
  frequency : Option String := none
deriving DecidableEq

/-- `CurtailMetaData.from_dict` via `FromDictMixin`. -/
def CurtailMetaData.from_dict (d : CurtailInput) : CurtailMetaData :=
  { time := d.time.getD "time",
    IAVL_ExtPwrDnWh := d.IAVL_ExtPwrDnWh.getD "IAVL_ExtPwrDnWh",
    IAVL_DnWh := d.IAVL_DnWh.getD "IAVL_DnWh",
    frequency := d.frequency.getD "10T" }

/-- `AssetMetaData` (`metadata.py` lines 513-587). -/
structure AssetMetaData where
  asset_id : String := "asset_id"
  latitude : String := "latitude"
  longitude : String := "longitude"
  rated_power : String := "rated_power"
  hub_height : String := "hub_height"
  rotor_diameter : String := "rotor_diameter"
  elevation : String := "elevation"
  type : String := "type"
deriving DecidableEq

/-- `AssetMetaData.__attrs_post_init__` (`metadata.py` lines 577-587). -/
def AssetMetaData.col_map (m : AssetMetaData) : List (String × String) :=
  [ ("asset_id", m.asset_id),
    ("latitude", m.latitude),
    ("longitude", m.longitude),
    ("rated_power", m.rated_power),
    ("hub_height", m.hub_height),
    ("rotor_diameter", m.rotor_diameter),
    ("elevation", m.elevation),
    ("type", m.type) ]

/-- Input dict for `AssetMetaData.from_dict`. -/
structure AssetInput where
  asset_id : Option String := none
  latitude : Option String := none
  longitude : Option String := none
  rated_power : Option String := none
  hub_height : Option String := none
  rotor_diameter : Option String := none
  elevation : Option String := none
  type : Option String := none
deriving DecidableEq

/-- `AssetMetaData.from_dict` via `FromDictMixin`. -/
def AssetMetaData.from_dict (d : AssetInput) : AssetMetaData :=
  { asset_id := d.asset_id.getD "asset_id",
    latitude := d.latitude.getD "latitude",
    longitude := d.longitude.getD "longitude",
    rated_power := d.rated_power.getD "rated_power",
    hub_height := d.hub_height.getD "hub_height",
    rotor_diameter := d.rotor_diameter.getD "rotor_diameter",
    elevation := d.elevation.getD "elevation",
    type := d.type.getD "type" }

/-- `ReanalysisMetaData` (`metadata.py` lines 594-675).  Note the source
default for `WMETR_EnvPres` is `"surface_pressure"`, unlike every other field
whose default equals its own name. -/
structure ReanalysisMetaData where
  time : String := "time"
  WMETR_HorWdSpd : String := "WMETR_HorWdSpd"
  WMETR_HorWdSpdU : String := "WMETR_HorWdSpdU"
  WMETR_HorWdSpdV : String := "WMETR_HorWdSpdV"
  WMETR_HorWdDir : String := "WMETR_HorWdDir"
  WMETR_EnvTmp : String := "WMETR_EnvTmp"
  WMETR_AirDen : String := "WMETR_AirDen"
  WMETR_EnvPres : String := "surface_pressure"
  frequency : String := "10T"
deriving DecidableEq

/-- `ReanalysisMetaData.__attrs_post_init__` (`metadata.py` lines 665-675). -/
def ReanalysisMetaData.col_map (m : ReanalysisMetaData) : List (String × String) :=
  [ ("time", m.time),
    ("WMETR_HorWdSpd", m.WMETR_HorWdSpd),
    ("WMETR_HorWdSpdU", m.WMETR_HorWdSpdU),
    ("WMETR_HorWdSpdV", m.WMETR_HorWdSpdV),
    ("WMETR_HorWdDir", m.WMETR_HorWdDir),
    ("WMETR_EnvTmp", m.WMETR_EnvTmp),
    ("WMETR_AirDen", m.WMETR_AirDen),
    ("WMETR_EnvPres", m.WMETR_EnvPres) ]

/-- Input dict for `ReanalysisMetaData.from_dict`. -/
structure ReanalysisInput where
  time : Option String := none
  WMETR_HorWdSpd : Option String := none
  WMETR_HorWdSpdU : Option String := none
  WMETR_HorWdSpdV : Option String := none
  WMETR_HorWdDir : Option String := none
  WMETR_EnvTmp : Option String := none
  WMETR_AirDen : Option String := none
  WMETR_EnvPres : Option String := none
  frequency : Option String := none
deriving DecidableEq

/-- `ReanalysisMetaData.from_dict` via `FromDictMixin`. -/
def ReanalysisMetaData.from_dict (d : ReanalysisInput) : ReanalysisMetaData :=
  { time := d.time.getD "time",
    WMETR_HorWdSpd := d.WMETR_HorWdSpd.getD "WMETR_HorWdSpd",
    WMETR_HorWdSpdU := d.WMETR_HorWdSpdU.getD "WMETR_HorWdSpdU",
    WMETR_HorWdSpdV := d.WMETR_HorWdSpdV.getD "WMETR_HorWdSpdV",
    WMETR_HorWdDir := d.WMETR_HorWdDir.getD "WMETR_HorWdDir",
    WMETR_EnvTmp := d.WMETR_EnvTmp.getD "WMETR_EnvTmp",
    WMETR_AirDen := d.WMETR_AirDen.getD "WMETR_AirDen",
    WMETR_EnvPres := d.WMETR_EnvPres.getD "surface_pressure",
    frequency := d.frequency.getD "10T" }

/-- `convert_reanalysis` (`metadata.py` lines 590-591): build a
`ReanalysisMetaData` per product name. -/
def convert_reanalysis (v : List (String × ReanalysisInput)) :
    List (String × ReanalysisMetaData) :=
  v.map fun kv => (kv.1, ReanalysisMetaData.from_dict kv.2)

/-- The input dict for `PlantMetaData.from_dict` (`metadata.py` lines
678-716): every top-level key is optional because every `attrs` field has a
default.  Sub-dicts for the fixed families and the reanalysis product map are
carried already parsed into their input shapes. -/
structure PlantInput where
  latitude : Option Float := none
  longitude : Option Float := none
  capacity : Option Float := none
  scada : Option SCADAInput := none
  meter : Option MeterInput := none
  tower : Option TowerInput := none
  status : Option StatusInput := none
  curtail : Option CurtailInput := none
  asset : Option AssetInput := none
  reanalysis : Option (List (String × ReanalysisInput)) := none

/-- `PlantMetaData` (`metadata.py` lines 678-716) after `attrs` conversion:
each family field holds the constructed metadata object. -/
structure PlantMetaData where
  latitude : Float := 0
  longitude : Float := 0
  capacity : Float := 0
  scada : SCADAMetaData := {}
  meter : MeterMetaData := {}
  tower : TowerMetaData := {}
  status : StatusMetaData := {}
  curtail : CurtailMetaData := {}
  asset : AssetMetaData := {}
  reanalysis : List (String × ReanalysisMetaData) :=
    convert_reanalysis [("product", {})]

/-- `PlantMetaData.from_dict` via `FromDictMixin` plus the field converters
(`metadata.py` lines 705-716): an absent family key falls back to the field
default before conversion — in particular an absent `reanalysis` key falls
back to the literal default `{"product": {}}`. -/
def PlantMetaData.from_dict (d : PlantInput) : PlantMetaData :=
  { latitude := d.latitude.getD 0,
    longitude := d.longitude.getD 0,
    capacity := d.capacity.getD 0,
    scada := SCADAMetaData.from_dict (d.scada.getD {}),
    meter := MeterMetaData.from_dict (d.meter.getD {}),
    tower := TowerMetaData.from_dict (d.tower.getD {}),
    status := StatusMetaData.from_dict (d.status.getD {}),
    curtail := CurtailMetaData.from_dict (d.curtail.getD {}),
    asset := AssetMetaData.from_dict (d.asset.getD {}),
    reanalysis := convert_reanalysis (d.reanalysis.getD [("product", {})]) }

/-- A value of the `PlantMetaData.column_map` dict: the fixed families map to
a flat column dict, the `"reanalysis"` entry to a product-name-keyed dict of
column dicts. -/
inductive ColMapVal where
  | flat (m : List (String × String))
  | nested (m : List (String × List (String × String)))
deriving DecidableEq

/-- `PlantMetaData.column_map` (`metadata.py` lines 718-734): the source
builds the dict with `reanalysis={}` and then, when `self.reanalysis != {}`,
overwrites the `"reanalysis"` entry with the per-product column dicts.  Note
the source order: scada, meter, tower, status, asset, curtail, reanalysis. -/
def PlantMetaData.column_map (m : PlantMetaData) : List (String × ColMapVal) :=
  [ ("scada", .flat m.scada.col_map),
    ("meter", .flat m.meter.col_map),
    ("tower", .flat m.tower.col_map),
    ("status", .flat m.status.col_map),
    ("asset", .flat m.asset.col_map),
    ("curtail", .flat m.curtail.col_map),
    ("reanalysis",
      if m.reanalysis = [] then .nested []
      else .nested (m.reanalysis.map fun kv => (kv.1, kv.2.col_map))) ]

/-- `PlantMetaData.coordinates` (`metadata.py` lines 754-761). -/
def PlantMetaData.coordinates (m : PlantMetaData) : Float × Float :=
  (m.latitude, m.longitude)

/-- The source of a `PlantMetaData.load` call (`metadata.py` lines 803-835):
an already-constructed instance, a parsed mapping, a string path (which the
source immediately turns into a `Path`, modelled here as carrying the same
abstract path), a `Path`, or any other object. -/
inductive LoadSource where
  | instSrc (m : PlantMetaData)
  | dictSrc (d : PlantInput)
  | strSrc (p : String)
  | pathSrc (p : String)
  | otherSrc

/-- The abstract file system seen by `PlantMetaData.from_json` / `from_yaml`:
a path either holds a parsed document or no file exists there.  Parsing
itself (json/yaml decoding) is outside the embedded subsystem. -/
abbrev FileSystem := String → Option PlantInput

/-- `Path(...).suffix` for the abstract string paths — the only `pathlib`
behaviour `load` depends on.  Mirrors the `pathlib` property: with `name` the
last slash-separated component and `i` the index of its last dot, the suffix
is `name[i:]` when `0 < i < len(name) - 1`, else empty (so dotless names,
leading-dot names like `".bashrc"`, and trailing-dot names have no suffix). -/
def pathSuffix (p : String) : String :=
  let name : List Char := p.data.foldl (fun acc c => if c = '/' then [] else acc ++ [c]) []
  match ((name.enum.filter fun ic => decide (ic.2 = '.')).getLast?).map Prod.fst with
  | some i => if 0 < i ∧ i + 1 < name.length then String.mk (name.drop i) else ""
  | none => ""

/-- `PlantMetaData.from_json` (`metadata.py` lines 763-781): a missing file
raises `FileExistsError`, otherwise the parsed document is handed to
`from_dict`. -/
def PlantMetaData.from_json (fs : FileSystem) (p : String) :
    Except PyError PlantMetaData :=
  match fs p with
  | none => .error (.fileExistsError p)
  | some d => .ok (PlantMetaData.from_dict d)

/-- `PlantMetaData.from_yaml` (`metadata.py` lines 783-801): same shape as
`from_json`, for YAML documents. -/
def PlantMetaData.from_yaml (fs : FileSystem) (p : String) :
    Except PyError PlantMetaData :=
  match fs p with
  | none => .error (.fileExistsError p)
  | some d => .ok (PlantMetaData.from_dict d)

/-- The path branch of `PlantMetaData.load` (`metadata.py` lines 824-830):
dispatch on the suffix, with an unsupported extension raising `ValueError`
before the file system is ever consulted. -/
def loadPath (fs : FileSystem) (p : String) : Except PyError PlantMetaData :=
  if pathSuffix p = ".json" then PlantMetaData.from_json fs p
  else if pathSuffix p = ".yaml" ∨ pathSuffix p = ".yml" then PlantMetaData.from_yaml fs p
  else .error (.valueError "Bad input file extension, must be one of: .json, .yml, or .yaml")

/-- `PlantMetaData.load` (`metadata.py` lines 803-835): an instance is
returned unchanged, a string becomes a path, a path dispatches on its suffix,
a dict goes through `from_dict`, and anything else raises `ValueError`. -/
def PlantMetaData.load (fs : FileSystem) : LoadSource → Except PyError PlantMetaData
  | .instSrc m => .ok m
  | .strSrc p => loadPath fs p
  | .pathSrc p => loadPath fs p
  | .dictSrc d => .ok (PlantMetaData.from_dict d)
  | .otherSrc =>
    .error (.valueError "PlantMetaData can only be loaded from str, Path, or dict objects.")

/-- The dict comprehension of `PlantMetaData.frequency_requirements`
(`metadata.py` lines 851-854): like `buildRequirements`, but `None` entries
of the analysis list are skipped by the `if key is not None` guard. -/
def buildRequirementsOpt (table : Requirements) :
    List (Option String) → Requirements → Except PyError Requirements
  | [], acc => .ok acc
  | none :: rest, acc => buildRequirementsOpt table rest acc
  | some n :: rest, acc =>
    match pyLookup table n with
    | none => .error (.keyError n)
    | some v => buildRequirementsOpt table rest (pyInsert acc n v)

/-- `PlantMetaData.frequency_requirements` (`metadata.py` lines 837-872).
The method never reads `self`; the `m` parameter mirrors the bound instance.
A list containing the wildcard `"all"` selects a deep copy of the whole
catalog (deep copy is the identity on immutable values); otherwise the
requirements dict is built from the non-`None` names.  The rest is the same
frequency-intersection algorithm as `determine_analysis_requirements`, which
the source duplicates verbatim (lines 855-872 against lines 106-121). -/
def PlantMetaData.frequency_requirements (_m : PlantMetaData)
    (analysis_types : List (Option String)) :
    Except PyError (List (String × Option (Finset String))) :=
  match
    (if some "all" ∈ analysis_types then Except.ok ANALYSIS_REQUIREMENTS
     else buildRequirementsOpt ANALYSIS_REQUIREMENTS analysis_types []) with
  | .error e => .error e
  | .ok requirements => freqRequirementsOf requirements

/-- The per-family union of mandatory columns over a selected analysis list —
the specification formula the column resolver is compared against. -/
def specMandatoryUnion (table : Requirements) (names : List String) (cat : String) :
    Finset String :=
  names.foldl
    (fun s n =>
      s ∪ (match pyLookup table n with
           | some entry => (catColumns entry cat).toFinset
           | none => ∅)) ∅

/-- The conditional columns of one analysis entry for a family, restricted to
the active flags. -/
def catConditionalColumns (entry : AnalysisEntry) (cat : String) (flags : Finset String) :
    Finset String :=
  match pyLookup entry cat with
  | some fr =>
    (((fr.conditional_columns.filter fun kv => decide (kv.1 ∈ flags)).map
        fun kv => kv.2).flatten).toFinset
  | none => ∅

/-- Modelled from the spec: the column set `resolve_columns` is claimed to
produce for a family — "the union over all selected analyses of that
analysis's mandatory columns for the family, plus the union of that
analysis's conditional columns for every flag present in the active-flags
set".  The source function has no flag parameter, so this formula exists only
to be compared against the code's behaviour. -/
def specColumnsWithFlags (table : Requirements) (names : List String)
    (flags : Finset String) (cat : String) : Finset String :=
  names.foldl
    (fun s n =>
      s ∪ (match pyLookup table n with
           | some entry =>
             (catColumns entry cat).toFinset ∪ catConditionalColumns entry cat flags
           | none => ∅)) ∅

/-- Projection of a successful `which="columns"` run, for stating relations
between resolver runs. -/
def colsMapOf (names : List String) : List (String × Finset String) :=
  match determine_analysis_requirements "columns" names with
  | .ok (.columnsRes m) => m
  | _ => []

/-- Projection of a successful `which="frequency"` run. -/
def freqMapOf (names : List String) : List (String × Option (Finset String)) :=
  match determine_analysis_requirements "frequency" names with
  | .ok (.frequencyRes m) => m
  | _ => []

/-- The frequency constraint a resolver result places on a family: `none`
when the family is absent (unconstrained), otherwise its accepted set. -/
def getFreqSet (d : List (String × Option (Finset String))) (k : String) :
    Option (Finset String) :=
  (pyLookup d k).bind id

/-- Intersection of two optional frequency constraints, `none` meaning
unconstrained. -/
def optInter : Option (Finset String) → Option (Finset String) → Option (Finset String)
  | none, b => b
  | some s, none => some s
  | some s, some t => some (s ∩ t)

/-- The accumulated effect of the frequency loop on one family's value: seed
on the first requirement list, intersect with each later one. -/
def combineFreq (v : Option (Finset String)) (reqs : List (List String)) :
    Option (Finset String) :=
  reqs.foldl
    (fun acc r =>
      match acc with
      | none => some r.toFinset
      | some s => some (s ∩ r.toFinset)) v

/-- A two-analysis demonstration catalog whose accepted frequency-class sets
for `"scada"` are disjoint, used to exhibit a conflicting family as a present
key with an empty set. -/
def demoDisjointTable : Requirements :=
  [ ("DailyOnly", [("scada", { columns := ["c1"], freq := ["D"] })]),
    ("MonthlyOnly", [("scada", { columns := ["c2"], freq := ["M"] })]) ]

/-- All (family, freq-list) update events of the frequency loop, in execution
order: the outer loop walks the analyses, the inner loop their families. -/
def entriesAll (ff : List (String × List (String × List String))) :
    List (String × List String) :=
  (ff.map fun kv => kv.2).flatten

/-- The frequency lists an update-event list holds for one family, in order. -/
def reqsFor (entries : List (String × List String)) (k : String) : List (List String) :=
  (entries.filter fun e => e.1 == k).map fun e => e.2

/-- One step of the frequency loop on a family's stored value: seed the
empty-list sentinel with `set(req)`, intersect an existing set with `req`. -/
def combineStep (v : Option (Finset String)) (r : List String) : Option (Finset String) :=
  match v with
  | none => some r.toFinset
  | some s => some (s ∩ r.toFinset)

/-- Projection of a successful `which="columns"` run over an arbitrary
catalog table. -/
def colsMapOver (table : Requirements) (names : List String) :
    List (String × Finset String) :=
  match determine_analysis_requirements_over table "columns" names with
  | .ok (.columnsRes m) => m
  | _ => []

/-- Projection of a successful `which="frequency"` run over an arbitrary
catalog table. -/
def freqMapOver (table : Requirements) (names : List String) :
    List (String × Option (Finset String)) :=
  match determine_analysis_requirements_over table "frequency" names with
  | .ok (.frequencyRes m) => m
  | _ => []

/-- A SCADA configuration mapping two semantic fields (`WTUR_W` and
`WMET_EnvTmp`) to the same actual column name, to exhibit the silent
last-wins collapse of `col_map_reversed`. -/
def dupSCADA : SCADAMetaData :=
  { WTUR_W := "dup", WMET_EnvTmp := "dup" }

/-! ### Association-list lemmas for the Python dict model -/

theorem pyLookup_pyInsert_self {V : Type} (d : List (String × V)) (k : String) (v : V) :
    pyLookup (pyInsert d k v) k = some v := by
  induction d with
  | nil => simp [pyInsert, pyLookup]
  | cons kv rest ih =>
    obtain ⟨k', v'⟩ := kv
    by_cases h : k' = k
    · simp [pyInsert, pyLookup, h]
    · simp [pyInsert, pyLookup, h, ih]

theorem pyLookup_pyInsert_ne {V : Type} (d : List (String × V)) {k k' : String} (v : V)
    (h : k' ≠ k) : pyLookup (pyInsert d k v) k' = pyLookup d k' := by
  have h' : ¬k = k' := fun hc => h hc.symm
  induction d with
  | nil => simp [pyInsert, pyLookup, h']
  | cons kv rest ih =>
    obtain ⟨k₀, v₀⟩ := kv
    by_cases h₀ : k₀ = k
    · subst h₀
      simp [pyInsert, pyLookup, h']
    · rw [pyInsert, if_neg h₀]
      simp [pyLookup, ih]

theorem mem_pyKeys_pyInsert {V : Type} (d : List (String × V)) (k k' : String) (v : V) :
    k' ∈ pyKeys (pyInsert d k v) ↔ k' = k ∨ k' ∈ pyKeys d := by
  induction d with
  | nil => simp [pyInsert, pyKeys]
  | cons kv rest ih =>
    obtain ⟨k₀, v₀⟩ := kv
    by_cases h₀ : k₀ = k
    · subst h₀
      simp [pyInsert, pyKeys, List.mem_map]
    · simp [pyInsert, pyKeys, List.mem_map, h₀] at ih ⊢
      tauto

theorem pyKeys_pyInsert_of_mem {V : Type} {d : List (String × V)} {k : String} (v : V) :
    k ∈ pyKeys d → pyKeys (pyInsert d k v) = pyKeys d := by
  induction d with
  | nil => intro h; simp [pyKeys] at h
  | cons kv rest ih =>
    intro h
    obtain ⟨k₀, v₀⟩ := kv
    by_cases h₀ : k₀ = k
    · simp [pyInsert, pyKeys, h₀]
    · have h' : k ∈ pyKeys rest := by
        simp [pyKeys] at h
        rcases h with h | h
        · exact absurd h.symm h₀
        · simpa [pyKeys] using h
      simp [pyInsert, pyKeys, h₀]
      simpa [pyKeys] using ih h'

theorem pyKeys_pyInsert_of_not_mem {V : Type} {d : List (String × V)} {k : String} (v : V) :
    k ∉ pyKeys d → pyKeys (pyInsert d k v) = pyKeys d ++ [k] := by
  induction d with
  | nil => intro _; simp [pyInsert, pyKeys]
  | cons kv rest ih =>
    intro h
    obtain ⟨k₀, v₀⟩ := kv
    have h₀ : k₀ ≠ k := by
      intro hc
      exact h (by simp [pyKeys, hc])
    have h' : k ∉ pyKeys rest := by
      intro hc
      exact h (by simp [pyKeys] at hc ⊢; tauto)
    simp [pyInsert, pyKeys, h₀]
    simpa [pyKeys] using ih h'

theorem pyInsert_eq_append_of_not_mem {V : Type} {d : List (String × V)} {k : String}
    (v : V) : k ∉ pyKeys d → pyInsert d k v = d ++ [(k, v)] := by
  induction d with
  | nil => intro _; simp [pyInsert]
  | cons kv rest ih =>
    intro h
    obtain ⟨k₀, v₀⟩ := kv
    have h₀ : k₀ ≠ k := by
      intro hc
      exact h (by simp [pyKeys, hc])
    have h' : k ∉ pyKeys rest := by
      intro hc
      exact h (by simp [pyKeys] at hc ⊢; tauto)
    simp [pyInsert, h₀, ih h']

theorem nodup_pyKeys_pyInsert {V : Type} {d : List (String × V)} (k : String) (v : V)
    (h : (pyKeys d).Nodup) : (pyKeys (pyInsert d k v)).Nodup := by
  by_cases hm : k ∈ pyKeys d
  · rw [pyKeys_pyInsert_of_mem v hm]; exact h
  · rw [pyKeys_pyInsert_of_not_mem v hm]
    simpa [List.nodup_append] using ⟨h, hm⟩

theorem mem_pyInsert {V : Type} {d : List (String × V)} {k : String} {v : V}
    {kv : String × V} (h : kv ∈ pyInsert d k v) : kv = (k, v) ∨ kv ∈ d := by
  induction d with
  | nil => simpa [pyInsert] using h
  | cons kv₀ rest ih =>
    obtain ⟨k₀, v₀⟩ := kv₀
    by_cases h₀ : k₀ = k
    · simp [pyInsert, h₀] at h
      rcases h with h | h
      · left; simp [h, h₀]
      · right; simp [h]
    · simp [pyInsert, h₀] at h
      rcases h with h | h
      · right; simp [h]
      · rcases ih h with h' | h'
        · left; exact h'
        · right; simp [h']

theorem pyLookup_isSome_iff {V : Type} (d : List (String × V)) (k : String) :
    (pyLookup d k).isSome ↔ k ∈ pyKeys d := by
  induction d with
  | nil => simp [pyLookup, pyKeys]
  | cons kv rest ih =>
    obtain ⟨k₀, v₀⟩ := kv
    by_cases h₀ : k₀ = k
    · simp [pyLookup, pyKeys, h₀]
    · simp [pyLookup, pyKeys, h₀, ih]
      intro hc
      exact absurd hc.symm h₀

theorem mem_of_pyLookup_eq_some {V : Type} {d : List (String × V)} {k : String} {v : V}
    (h : pyLookup d k = some v) : (k, v) ∈ d := by
  induction d with
  | nil => simp [pyLookup] at h
  | cons kv rest ih =>
    obtain ⟨k₀, v₀⟩ := kv
    by_cases h₀ : k₀ = k
    · simp [pyLookup, h₀] at h
      simp [h₀, h]
    · simp [pyLookup, h₀] at h
      simp [ih h]

theorem exists_of_mem_pyKeys {V : Type} {d : List (String × V)} {k : String}
    (h : k ∈ pyKeys d) : ∃ v, (k, v) ∈ d := by
  have := (pyLookup_isSome_iff d k).mpr h
  rcases Option.isSome_iff_exists.mp this with ⟨v, hv⟩
  exact ⟨v, mem_of_pyLookup_eq_some hv⟩

theorem pyLookup_of_mem_nodup {V : Type} {d : List (String × V)} {k : String} {v : V}
    (hnd : (pyKeys d).Nodup) (hm : (k, v) ∈ d) : pyLookup d k = some v := by
  induction d with
  | nil => simp at hm
  | cons kv rest ih =>
    obtain ⟨k₀, v₀⟩ := kv
    simp [pyKeys] at hnd
    rcases List.mem_cons.mp hm with h | h
    · obtain ⟨h₁, h₂⟩ := Prod.mk.injEq k₀ v₀ k v ▸ h.symm
      simp [pyLookup, h₁, h₂]
    · have hk : k₀ ≠ k := by
        intro hc
        subst hc
        exact hnd.1 v (by simpa using h)
      simp [pyLookup, hk]
      exact ih hnd.2 h

theorem pyLookup_map_keyfun {V : Type} (l : List String) (g : String → V) (k : String) :
    pyLookup (l.map fun c => (c, g c)) k = if k ∈ l then some (g k) else none := by
  induction l with
  | nil => simp [pyLookup]
  | cons c rest ih =>
    by_cases h : c = k
    · simp [pyLookup, h]
    · have h' : ¬k = c := fun hc => h hc.symm
      simp [pyLookup, h, h', ih]

theorem pyLookup_filter_val {V : Type} (p : V → Bool) {d : List (String × V)}
    (hnd : (pyKeys d).Nodup) (k : String) :
    pyLookup (d.filter fun kv => p kv.2) k =
      (pyLookup d k).bind (fun v => if p v then some v else none) := by
  induction d with
  | nil => simp [pyLookup]
  | cons kv rest ih =>
    obtain ⟨k₀, v₀⟩ := kv
    simp [pyKeys] at hnd
    by_cases hp : p v₀
    · by_cases h₀ : k₀ = k
      · simp [pyLookup, h₀, hp]
      · simp [pyLookup, h₀, hp, ih hnd.2]
    · by_cases h₀ : k₀ = k
      · subst h₀
        have : pyLookup rest k₀ = none := by
          rcases h : pyLookup rest k₀ with _ | v
          · rfl
          · exact absurd (by simpa [pyKeys] using
              List.mem_map_of_mem Prod.fst (mem_of_pyLookup_eq_some h)) (by
                intro hc
                exact hnd.1 v (by simpa using mem_of_pyLookup_eq_some h))
        simp [pyLookup, hp, ih hnd.2, this]
      · simp [pyLookup, h₀, hp, ih hnd.2]

theorem mem_dedupFirst (l : List String) (x : String) : x ∈ dedupFirst l ↔ x ∈ l := by
  induction l with
  | nil => simp [dedupFirst]
  | cons y rest ih =>
    by_cases h : x = y
    · simp [dedupFirst, h]
    · simp [dedupFirst, List.mem_filter, h, ih, bne_iff_ne]

theorem nodup_dedupFirst (l : List String) : (dedupFirst l).Nodup := by
  induction l with
  | nil => simp [dedupFirst]
  | cons y rest ih =>
    refine List.Nodup.cons ?_ (ih.filter _)
    intro hc
    rcases List.mem_filter.mp hc with ⟨_, hne⟩
    simp [bne_iff_ne] at hne

/-! ### Requirements-dict construction -/

theorem buildRequirements_error (table : Requirements) :
    ∀ (pre : List String) (n : String) (post : List String) (acc : Requirements),
      (∀ m ∈ pre, (pyLookup table m).isSome) → pyLookup table n = none →
      buildRequirements table (pre ++ n :: post) acc = .error (.keyError n) := by
  intro pre
  induction pre with
  | nil =>
    intro n post acc _ hn
    simp [buildRequirements, hn]
  | cons m rest ih =>
    intro n post acc hpre hn
    rcases Option.isSome_iff_exists.mp (hpre m (by simp)) with ⟨v, hv⟩
    simpa [buildRequirements, hv] using
      ih n post (pyInsert acc m v) (fun x hx => hpre x (by simp [hx])) hn

theorem buildRequirements_ok (table : Requirements) :
    ∀ (names : List String) (acc : Requirements),
      (∀ n ∈ names, (pyLookup table n).isSome) →
      ∃ D, buildRequirements table names acc = .ok D ∧
        (∀ k, k ∈ pyKeys D ↔ k ∈ names ∨ k ∈ pyKeys acc) ∧
        (∀ kv, kv ∈ D → pyLookup table kv.1 = some kv.2 ∨ kv ∈ acc) ∧
        ((pyKeys acc).Nodup → (pyKeys D).Nodup) := by
  intro names
  induction names with
  | nil =>
    intro acc _
    exact ⟨acc, rfl, by simp, fun _ h => Or.inr h, fun h => h⟩
  | cons n rest ih =>
    intro acc hval
    rcases Option.isSome_iff_exists.mp (hval n (by simp)) with ⟨v, hv⟩
    rcases ih (pyInsert acc n v) (fun x hx => hval x (by simp [hx])) with
      ⟨D, hD, hkeys, hmem, hnd⟩
    refine ⟨D, by simp [buildRequirements, hv, hD], ?_, ?_, ?_⟩
    · intro k
      rw [hkeys k, mem_pyKeys_pyInsert]
      simp [List.mem_cons]
      tauto
    · intro kv hkv
      rcases hmem kv hkv with h | h
      · exact Or.inl h
      · rcases mem_pyInsert h with h' | h'
        · left
          rw [h']
          exact hv
        · exact Or.inr h'
    · intro h
      exact hnd (nodup_pyKeys_pyInsert n v h)

theorem buildRequirementsOpt_map_some (table : Requirements) :
    ∀ (names : List String) (acc : Requirements),
      buildRequirementsOpt table (names.map some) acc = buildRequirements table names acc := by
  intro names
  induction names with
  | nil => intro acc; rfl
  | cons n rest ih =>
    intro acc
    simp only [List.map_cons, buildRequirementsOpt, buildRequirements]
    cases pyLookup table n with
    | none => rfl
    | some v => exact ih (pyInsert acc n v)

/-! ### The frequency-intersection loop -/

theorem combineFreq_cons (v : Option (Finset String)) (r : List String)
    (rs : List (List String)) :
    combineFreq v (r :: rs) = combineFreq (combineStep v r) rs := by
  cases v <;> rfl

theorem combineFreq_append (v : Option (Finset String)) (l₁ l₂ : List (List String)) :
    combineFreq v (l₁ ++ l₂) = combineFreq (combineFreq v l₁) l₂ := by
  simp [combineFreq, List.foldl_append]

theorem combineFreq_some_isSome (rs : List (List String)) :
    ∀ s, (combineFreq (some s) rs).isSome := by
  induction rs with
  | nil => intro s; rfl
  | cons r rest ih =>
    intro s
    rw [combineFreq_cons]
    exact ih (s ∩ r.toFinset)

theorem combineFreq_isSome_of_ne_nil {rs : List (List String)} (h : rs ≠ [])
    (v : Option (Finset String)) : (combineFreq v rs).isSome := by
  cases rs with
  | nil => exact absurd rfl h
  | cons r rest =>
    rw [combineFreq_cons]
    cases v with
    | none => exact combineFreq_some_isSome rest r.toFinset
    | some s => exact combineFreq_some_isSome rest (s ∩ r.toFinset)

theorem reqsFor_cons_self (n : String) (r : List String)
    (rest : List (String × List String)) :
    reqsFor ((n, r) :: rest) n = r :: reqsFor rest n := by
  simp [reqsFor]

theorem reqsFor_cons_ne {n k : String} (r : List String)
    (rest : List (String × List String)) (h : n ≠ k) :
    reqsFor ((n, r) :: rest) k = reqsFor rest k := by
  simp [reqsFor, h]

theorem reqsFor_append (e₁ e₂ : List (String × List String)) (k : String) :
    reqsFor (e₁ ++ e₂) k = reqsFor e₁ k ++ reqsFor e₂ k := by
  simp [reqsFor]

theorem freqInner_ok :
    ∀ (entries : List (String × List String)) (d : List (String × Option (Finset String))),
      (∀ e ∈ entries, e.1 ∈ pyKeys d) →
      ∃ d', freqInner d entries = .ok d' ∧ pyKeys d' = pyKeys d ∧
        (∀ k, pyLookup d' k =
          (pyLookup d k).map fun v => combineFreq v (reqsFor entries k)) := by
  intro entries
  induction entries with
  | nil =>
    intro d _
    refine ⟨d, rfl, rfl, ?_⟩
    intro k
    rcases pyLookup d k with _ | v <;> simp [reqsFor, combineFreq]
  | cons e rest ih =>
    intro d hin
    obtain ⟨n, r⟩ := e
    have hn : n ∈ pyKeys d := hin (n, r) (by simp)
    rcases Option.isSome_iff_exists.mp ((pyLookup_isSome_iff d n).mpr hn) with ⟨v, hv⟩
    have hstep : freqInner d ((n, r) :: rest) =
        freqInner (pyInsert d n (combineStep v r)) rest := by
      cases v <;> simp [freqInner, hv, combineStep]
    have hin' : ∀ e ∈ rest, e.1 ∈ pyKeys (pyInsert d n (combineStep v r)) := by
      intro e he
      rw [mem_pyKeys_pyInsert]
      exact Or.inr (hin e (by simp [he]))
    rcases ih (pyInsert d n (combineStep v r)) hin' with ⟨d', hd', hkeys, hlook⟩
    refine ⟨d', hstep.trans hd', hkeys.trans (pyKeys_pyInsert_of_mem _ hn), ?_⟩
    intro k
    by_cases hk : k = n
    · subst hk
      rw [hlook k, pyLookup_pyInsert_self, hv, reqsFor_cons_self]
      simp [combineFreq_cons]
    · rw [hlook k, pyLookup_pyInsert_ne d _ hk, reqsFor_cons_ne r rest fun hc => hk hc.symm]

theorem freqOuter_ok :
    ∀ (ff : List (String × List (String × List String)))
      (d : List (String × Option (Finset String))),
      (∀ kv ∈ ff, ∀ e ∈ kv.2, e.1 ∈ pyKeys d) →
      ∃ d', freqOuter d ff = .ok d' ∧ pyKeys d' = pyKeys d ∧
        (∀ k, pyLookup d' k =
          (pyLookup d k).map fun v => combineFreq v (reqsFor (entriesAll ff) k)) := by
  intro ff
  induction ff with
  | nil =>
    intro d _
    refine ⟨d, rfl, rfl, ?_⟩
    intro k
    rcases pyLookup d k with _ | v <;> simp [entriesAll, reqsFor, combineFreq]
  | cons kv rest ih =>
    intro d hin
    obtain ⟨a, fams⟩ := kv
    rcases freqInner_ok fams d (fun e he => hin (a, fams) (by simp) e he) with
      ⟨d₁, hd₁, hkeys₁, hlook₁⟩
    have hin' : ∀ kv ∈ rest, ∀ e ∈ kv.2, e.1 ∈ pyKeys d₁ := by
      intro kv hkv e he
      rw [hkeys₁]
      exact hin kv (by simp [hkv]) e he
    rcases ih d₁ hin' with ⟨d', hd', hkeys', hlook'⟩
    refine ⟨d', by simp [freqOuter, hd₁, hd'], hkeys'.trans hkeys₁, ?_⟩
    intro k
    rw [hlook' k, hlook₁ k]
    have : entriesAll ((a, fams) :: rest) = fams ++ entriesAll rest := by
      simp [entriesAll]
    rw [this, reqsFor_append]
    rcases pyLookup d k with _ | v
    · rfl
    · simp [combineFreq_append]

/-! ### Characterisation of the resolver results -/

theorem pyKeys_map_keyfun {V : Type} (l : List String) (g : String → V) :
    pyKeys (l.map fun c => (c, g c)) = l := by
  induction l with
  | nil => rfl
  | cons c rest ih =>
    simp [pyKeys] at ih ⊢
    exact ih

theorem mem_touchedFamilies (ff : List (String × List (String × List String)))
    (x : String) : x ∈ touchedFamilies ff ↔ ∃ kv ∈ ff, x ∈ pyKeys kv.2 := by
  rw [touchedFamilies, mem_dedupFirst]
  constructor
  · intro hx
    rcases List.mem_flatten.mp hx with ⟨l, hl, hxl⟩
    rcases List.mem_map.mp hl with ⟨kv, hkv, rfl⟩
    exact ⟨kv, hkv, hxl⟩
  · rintro ⟨kv, hkv, hx⟩
    exact List.mem_flatten.mpr ⟨pyKeys kv.2, List.mem_map_of_mem _ hkv, hx⟩

theorem reqsFor_ne_nil_of_mem {entries : List (String × List String)} {k : String}
    (h : ∃ e ∈ entries, e.1 = k) : reqsFor entries k ≠ [] := by
  rcases h with ⟨e, he, hk⟩
  have : e.2 ∈ reqsFor entries k :=
    List.mem_map_of_mem _ (List.mem_filter.mpr ⟨he, by simp [hk]⟩)
  exact List.ne_nil_of_mem this

theorem freqRequirementsOf_ok (reqs : Requirements) :
    ∃ F, freqRequirementsOf reqs = .ok F ∧
      pyKeys F = touchedFamilies (famFreqs reqs) ∧
      (∀ k, k ∈ touchedFamilies (famFreqs reqs) →
        pyLookup F k = some (combineFreq none (reqsFor (entriesAll (famFreqs reqs)) k))) ∧
      (∀ k, k ∉ touchedFamilies (famFreqs reqs) → pyLookup F k = none) := by
  have hkeys₀ : pyKeys (initFreq (touchedFamilies (famFreqs reqs))) =
      touchedFamilies (famFreqs reqs) := pyKeys_map_keyfun _ _
  have hin : ∀ kv ∈ famFreqs reqs, ∀ e ∈ kv.2,
      e.1 ∈ pyKeys (initFreq (touchedFamilies (famFreqs reqs))) := by
    intro kv hkv e he
    rw [hkeys₀, mem_touchedFamilies]
    exact ⟨kv, hkv, List.mem_map_of_mem _ he⟩
  rcases freqOuter_ok (famFreqs reqs) _ hin with ⟨F, hF, hkeys, hlook⟩
  have hlook₀ : ∀ k, pyLookup (initFreq (touchedFamilies (famFreqs reqs))) k =
      if k ∈ touchedFamilies (famFreqs reqs) then some none else none := by
    intro k
    exact pyLookup_map_keyfun _ (fun _ => none) k
  refine ⟨F, hF, hkeys.trans hkeys₀, ?_, ?_⟩
  · intro k hk
    rw [hlook k, hlook₀ k, if_pos hk]
    rfl
  · intro k hk
    rw [hlook k, hlook₀ k, if_neg hk]
    rfl

theorem mem_colUnion (reqs : Requirements) (cat : String) (x : String) :
    x ∈ colUnion reqs cat ↔ ∃ kv ∈ reqs, x ∈ catColumns kv.2 cat := by
  rw [colUnion, List.mem_toFinset]
  constructor
  · intro hx
    rcases List.mem_flatten.mp hx with ⟨l, hl, hxl⟩
    rcases List.mem_map.mp hl with ⟨kv, hkv, rfl⟩
    exact ⟨kv, hkv, hxl⟩
  · rintro ⟨kv, hkv, hx⟩
    exact List.mem_flatten.mpr ⟨catColumns kv.2 cat, List.mem_map_of_mem _ hkv, hx⟩

theorem pyLookup_columnRequirementsOf (reqs : Requirements) (cat : String) :
    pyLookup (columnRequirementsOf reqs) cat =
      if cat ∈ categories ∧ colUnion reqs cat ≠ ∅ then some (colUnion reqs cat)
      else none := by
  have hnd : (pyKeys (categories.map fun c => (c, colUnion reqs c))).Nodup := by
    rw [pyKeys_map_keyfun]
    decide
  rw [columnRequirementsOf, pyLookup_filter_val (fun v => decide (v ≠ ∅)) hnd,
    pyLookup_map_keyfun]
  by_cases h : cat ∈ categories
  · by_cases h2 : colUnion reqs cat = ∅ <;> simp [h, h2]
  · simp [h]

theorem mem_foldl_union (f : String → Finset String) :
    ∀ (l : List String) (a : Finset String) (x : String),
      x ∈ l.foldl (fun s n => s ∪ f n) a ↔ x ∈ a ∨ ∃ n ∈ l, x ∈ f n := by
  intro l
  induction l with
  | nil => intro a x; simp
  | cons n rest ih =>
    intro a x
    rw [List.foldl_cons, ih]
    simp [Finset.mem_union]
    tauto

theorem mem_specMandatoryUnion (table : Requirements) (names : List String)
    (cat : String) (x : String) :
    x ∈ specMandatoryUnion table names cat ↔
      ∃ n ∈ names, ∃ entry, pyLookup table n = some entry ∧ x ∈ catColumns entry cat := by
  rw [specMandatoryUnion, mem_foldl_union]
  have hmatch : ∀ n, x ∈ (match pyLookup table n with
      | some entry => (catColumns entry cat).toFinset
      | none => (∅ : Finset String)) ↔
      ∃ entry, pyLookup table n = some entry ∧ x ∈ catColumns entry cat := by
    intro n
    cases h : pyLookup table n <;> simp [h]
  simp only [Finset.not_mem_empty, false_or]
  constructor
  · rintro ⟨n, hn, hx⟩
    exact ⟨n, hn, (hmatch n).mp hx⟩
  · rintro ⟨n, hn, hx⟩
    exact ⟨n, hn, (hmatch n).mpr hx⟩

theorem pyKeys_map_pair {A B : Type} (l : List (String × A)) (g : String × A → B) :
    pyKeys (l.map fun fv => (fv.1, g fv)) = pyKeys l := by
  induction l with
  | nil => rfl
  | cons fv rest ih => simp [pyKeys]

theorem mem_touchedFamilies_famFreqs (D : Requirements) (fam : String) :
    fam ∈ touchedFamilies (famFreqs D) ↔ ∃ kv ∈ D, fam ∈ pyKeys kv.2 := by
  rw [mem_touchedFamilies]
  constructor
  · rintro ⟨kv, hkv, hf⟩
    rcases List.mem_map.mp hkv with ⟨kv', h', rfl⟩
    refine ⟨kv', h', ?_⟩
    simpa [pyKeys_map_pair] using hf
  · rintro ⟨kv, hkv, hf⟩
    refine ⟨(kv.1, kv.2.map fun fv => (fv.1, fv.2.freq)), List.mem_map_of_mem _ hkv, ?_⟩
    simpa [pyKeys_map_pair] using hf

theorem determine_columns_run (table : Requirements) (names : List String)
    (hval : ∀ n ∈ names, (pyLookup table n).isSome) :
    ∃ D, buildRequirements table names [] = .ok D ∧
      determine_analysis_requirements_over table "columns" names =
        .ok (.columnsRes (columnRequirementsOf D)) ∧
      colsMapOver table names = columnRequirementsOf D ∧
      (∀ k, k ∈ pyKeys D ↔ k ∈ names) ∧
      (∀ kv ∈ D, pyLookup table kv.1 = some kv.2) ∧
      (pyKeys D).Nodup := by
  rcases buildRequirements_ok table names [] hval with ⟨D, hD, hkeys, hmem, hnd⟩
  have hrun : determine_analysis_requirements_over table "columns" names =
      .ok (.columnsRes (columnRequirementsOf D)) := by
    unfold determine_analysis_requirements_over
    rw [hD]
    rfl
  have hproj : colsMapOver table names = columnRequirementsOf D := by
    unfold colsMapOver
    rw [hrun]
  refine ⟨D, hD, hrun, hproj, ?_, ?_, hnd (by simp [pyKeys])⟩
  · intro k
    rw [hkeys k]
    simp [pyKeys]
  · intro kv hkv
    rcases hmem kv hkv with h | h
    · exact h
    · simp at h

theorem determine_frequency_run (table : Requirements) (names : List String)
    (hval : ∀ n ∈ names, (pyLookup table n).isSome) :
    ∃ D, buildRequirements table names [] = .ok D ∧
      determine_analysis_requirements_over table "frequency" names =
        .ok (.frequencyRes (freqMapOver table names)) ∧
      pyKeys (freqMapOver table names) = touchedFamilies (famFreqs D) ∧
      (∀ k, k ∈ touchedFamilies (famFreqs D) →
        pyLookup (freqMapOver table names) k =
          some (combineFreq none (reqsFor (entriesAll (famFreqs D)) k))) ∧
      (∀ k, k ∉ touchedFamilies (famFreqs D) →
        pyLookup (freqMapOver table names) k = none) ∧
      (∀ k, k ∈ pyKeys D ↔ k ∈ names) ∧
      (∀ kv ∈ D, pyLookup table kv.1 = some kv.2) ∧
      (pyKeys D).Nodup := by
  rcases buildRequirements_ok table names [] hval with ⟨D, hD, hkeys, hmem, hnd⟩
  rcases freqRequirementsOf_ok D with ⟨F, hF, hFkeys, hFin, hFout⟩
  have hrun : determine_analysis_requirements_over table "frequency" names =
      .ok (.frequencyRes F) := by
    unfold determine_analysis_requirements_over
    rw [hD]
    show (match freqRequirementsOf D with
      | .error e => Except.error e
      | .ok f => Except.ok (ReqResult.frequencyRes f)) = _
    rw [hF]
  have hproj : freqMapOver table names = F := by
    unfold freqMapOver
    rw [hrun]
  rw [← hproj] at hFkeys hFin hFout
  refine ⟨D, hD, by rw [hrun, hproj], hFkeys, hFin, hFout, ?_, ?_, hnd (by simp [pyKeys])⟩
  · intro k
    rw [hkeys k]
    simp [pyKeys]
  · intro kv hkv
    rcases hmem kv hkv with h | h
    · exact h
    · simp at h

/-! ### Claims -/

theorem buildRequirementsOpt_error (table : Requirements) :
    ∀ (pre : List (Option String)) (n : String) (post : List (Option String))
      (acc : Requirements),
      (∀ x ∈ pre, ∀ s, x = some s → (pyLookup table s).isSome) →
      pyLookup table n = none →
      buildRequirementsOpt table (pre ++ some n :: post) acc = .error (.keyError n) := by
  intro pre
  induction pre with
  | nil =>
    intro n post acc _ hn
    simp [buildRequirementsOpt, hn]
  | cons x rest ih =>
    intro n post acc hpre hn
    cases x with
    | none =>
      simpa [buildRequirementsOpt] using
        ih n post acc (fun y hy => hpre y (by simp [hy])) hn
    | some m =>
      rcases Option.isSome_iff_exists.mp (hpre (some m) (by simp) m rfl) with ⟨v, hv⟩
      simpa [buildRequirementsOpt, hv] using
        ih n post (pyInsert acc m v) (fun y hy => hpre y (by simp [hy])) hn

/-- C2, corrected, counterexample: resolving an empty analysis-name list does
not raise — both resolver entry points succeed and return the empty mapping,
contradicting the claimed `ConfigurationError`. -/
theorem claim_C2_counterexample :
    determine_analysis_requirements "columns" [] = .ok (.columnsRes []) ∧
    determine_analysis_requirements "frequency" [] = .ok (.frequencyRes []) ∧
    PlantMetaData.frequency_requirements {} [] = .ok [] := by
  refine ⟨by decide, by decide, ?_⟩
  rfl

/-- C2, as amended: an analysis name missing from the catalog makes both
resolution entry points raise the builtin `KeyError` carrying the bad name
(the file defines no `ConfigurationError`), provided the names before it are
valid (the comprehension stops at the first bad name) and, for
`PlantMetaData.frequency_requirements`, the list does not contain the
wildcard; an empty analysis-name list does not raise but returns the empty
mapping from both entry points. -/
theorem claim_C2 :
    (∀ (which : String) (pre : List String) (n : String) (post : List String),
      (∀ m ∈ pre, (pyLookup ANALYSIS_REQUIREMENTS m).isSome) →
      pyLookup ANALYSIS_REQUIREMENTS n = none →
      determine_analysis_requirements which (pre ++ n :: post) = .error (.keyError n)) ∧
    (∀ (m : PlantMetaData) (pre : List (Option String)) (n : String)
        (post : List (Option String)),
      some "all" ∉ pre ++ some n :: post →
      (∀ x ∈ pre, ∀ s, x = some s → (pyLookup ANALYSIS_REQUIREMENTS s).isSome) →
      pyLookup ANALYSIS_REQUIREMENTS n = none →
      m.frequency_requirements (pre ++ some n :: post) = .error (.keyError n)) ∧
    determine_analysis_requirements "columns" [] = .ok (.columnsRes []) ∧
    determine_analysis_requirements "frequency" [] = .ok (.frequencyRes []) ∧
    (∀ m : PlantMetaData, m.frequency_requirements [] = .ok []) := by
  refine ⟨?_, ?_, by decide, by decide, fun m => rfl⟩
  · intro which pre n post hpre hn
    unfold determine_analysis_requirements determine_analysis_requirements_over
    rw [buildRequirements_error ANALYSIS_REQUIREMENTS pre n post [] hpre hn]
  · intro m pre n post hall hpre hn
    unfold PlantMetaData.frequency_requirements
    rw [if_neg hall, buildRequirementsOpt_error ANALYSIS_REQUIREMENTS pre n post [] hpre hn]

/-- C2 witness: the amended behaviour at concrete inputs — the unknown name
`"Unknown"` after the valid `"MonteCarloAEP"` raises `KeyError("Unknown")`
from both entry points. -/
theorem claim_C2_witness :
    determine_analysis_requirements "columns" ["MonteCarloAEP", "Unknown"] =
      .error (.keyError "Unknown") ∧
    PlantMetaData.frequency_requirements {} [some "MonteCarloAEP", some "Unknown", none] =
      .error (.keyError "Unknown") ∧
    PlantMetaData.frequency_requirements {} [] = .ok [] :=
  ⟨claim_C2.1 "columns" ["MonteCarloAEP"] "Unknown" [] (by decide) (by decide),
   claim_C2.2.1 {} [some "MonteCarloAEP"] "Unknown" [none] (by decide) (by decide) (by decide),
   claim_C2.2.2.2.2 {}⟩

/-- C3, confirmed: resolving each single catalog analysis with no flags
returns, family by family and with no additions or omissions, exactly the
catalog's declared mandatory-column sets and raw accepted-frequency-class
sets; in particular `ElectricalLosses` yields the claimed column mapping and
the monthly-through-finest class set for `"meter"`. -/
theorem claim_C3 :
    determine_analysis_requirements "columns" ["MonteCarloAEP"] =
      .ok (.columnsRes
        [("meter", (["MMTR_SupWh"] : List String).toFinset),
         ("curtail", (["IAVL_DnWh", "IAVL_ExtPwrDnWh"] : List String).toFinset),
         ("reanalysis", (["WMETR_HorWdSpd", "WMETR_AirDen"] : List String).toFinset)]) ∧
    determine_analysis_requirements "frequency" ["MonteCarloAEP"] =
      .ok (.frequencyRes
        [("meter", some _at_least_monthly.toFinset),
         ("curtail", some _at_least_monthly.toFinset),
         ("reanalysis", some _at_least_monthly.toFinset)]) ∧
    determine_analysis_requirements "columns" ["TurbineLongTermGrossEnergy"] =
      .ok (.columnsRes
        [("scada", (["asset_id", "WMET_HorWdSpd", "WTUR_W"] : List String).toFinset),
         ("reanalysis",
           (["WMETR_HorWdSpd", "WMETR_HorWdDir", "WMETR_AirDen"] : List String).toFinset)]) ∧
    determine_analysis_requirements "frequency" ["TurbineLongTermGrossEnergy"] =
      .ok (.frequencyRes
        [("scada", some _at_least_daily.toFinset),
         ("reanalysis", some _at_least_daily.toFinset)]) ∧
    determine_analysis_requirements "columns" ["ElectricalLosses"] =
      .ok (.columnsRes
        [("scada", (["asset_id", "WTUR_W"] : List String).toFinset),
         ("meter", (["MMTR_SupWh"] : List String).toFinset)]) ∧
    determine_analysis_requirements "frequency" ["ElectricalLosses"] =
      .ok (.frequencyRes
        [("scada", some _at_least_daily.toFinset),
         ("meter", some _at_least_monthly.toFinset)]) ∧
    determine_analysis_requirements "columns" ["WakeLosses"] =
      .ok (.columnsRes
        [("scada",
           (["asset_id", "WMET_HorWdSpd", "WMET_HorWdDir", "WTUR_W"] : List String).toFinset),
         ("reanalysis", (["WMETR_HorWdSpd", "WMETR_HorWdDir"] : List String).toFinset)]) ∧
    determine_analysis_requirements "frequency" ["WakeLosses"] =
      .ok (.frequencyRes
        [("scada", some _at_least_hourly.toFinset),
         ("reanalysis", some _at_least_hourly.toFinset)]) := by
  decide

/-- C4, confirmed: for every pair of catalog analysis names and every family
in the two-analysis frequency result, the accepted set is the intersection of
the two singleton results, a family absent from a singleton result acting as
unconstrained; the intersection is never `none` on result families. -/
theorem claim_C4 :
    ∀ A ∈ pyKeys ANALYSIS_REQUIREMENTS, ∀ B ∈ pyKeys ANALYSIS_REQUIREMENTS,
      determine_analysis_requirements "frequency" [A, B] =
        .ok (.frequencyRes (freqMapOf [A, B])) ∧
      ∀ F ∈ pyKeys (freqMapOf [A, B]),
        getFreqSet (freqMapOf [A, B]) F =
          optInter (getFreqSet (freqMapOf [A]) F) (getFreqSet (freqMapOf [B]) F) ∧
        getFreqSet (freqMapOf [A, B]) F ≠ none := by
  decide

/-- C4 witness: the intersection law at the concrete pair
(`MonteCarloAEP`, `ElectricalLosses`) and family `"meter"`. -/
theorem claim_C4_witness :
    getFreqSet (freqMapOf ["MonteCarloAEP", "ElectricalLosses"]) "meter" =
      optInter (getFreqSet (freqMapOf ["MonteCarloAEP"]) "meter")
        (getFreqSet (freqMapOf ["ElectricalLosses"]) "meter") :=
  ((claim_C4 "MonteCarloAEP" (by decide) "ElectricalLosses" (by decide)).2
    "meter" (by decide)).1

/-- C6, corrected, counterexample: `determine_analysis_requirements` does not
support the wildcard — resolving `["all"]` raises `KeyError("all")` instead
of equalling the resolution of the explicit full catalog list, for both the
column and the frequency entry points. -/
theorem claim_C6_counterexample :
    determine_analysis_requirements "columns" ["all"] ≠
      determine_analysis_requirements "columns" (pyKeys ANALYSIS_REQUIREMENTS) ∧
    determine_analysis_requirements "frequency" ["all"] ≠
      determine_analysis_requirements "frequency" (pyKeys ANALYSIS_REQUIREMENTS) := by
  decide

/-- C6, as amended: only `PlantMetaData.frequency_requirements` implements
the wildcard — any analysis list containing `"all"` resolves exactly like the
explicit full list of every catalog analysis name — while
`determine_analysis_requirements` raises `KeyError("all")` for the wildcard
in both column and frequency modes. -/
theorem claim_C6 :
    (∀ (m : PlantMetaData) (types : List (Option String)), some "all" ∈ types →
      m.frequency_requirements types =
        m.frequency_requirements ((pyKeys ANALYSIS_REQUIREMENTS).map some)) ∧
    determine_analysis_requirements "columns" ["all"] = .error (.keyError "all") ∧
    determine_analysis_requirements "frequency" ["all"] = .error (.keyError "all") := by
  refine ⟨?_, by decide, by decide⟩
  intro m types h
  unfold PlantMetaData.frequency_requirements
  rw [if_pos h, if_neg (by decide)]
  have hfull : buildRequirementsOpt ANALYSIS_REQUIREMENTS
      ((pyKeys ANALYSIS_REQUIREMENTS).map some) [] = .ok ANALYSIS_REQUIREMENTS := by
    decide
  rw [hfull]

/-- C6 witness: the wildcard list `["all"]` and the explicit full list agree
on `PlantMetaData.frequency_requirements`. -/
theorem claim_C6_witness :
    PlantMetaData.frequency_requirements {} [some "all"] =
      PlantMetaData.frequency_requirements {}
        ((pyKeys ANALYSIS_REQUIREMENTS).map some) :=
  claim_C6.1 {} [some "all"] (by decide)

/-- C1, corrected, counterexample: the catalog declares `WMETR_EnvTmp` as a
conditional reanalysis column of `MonteCarloAEP` under the
`reg_temperature` flag, so the claimed resolution with that flag active must
contain it; but `determine_analysis_requirements` has no flag parameter and
never reads `conditional_columns`, and its reanalysis column set for
`MonteCarloAEP` omits `WMETR_EnvTmp`. -/
theorem claim_C1_counterexample :
    "WMETR_EnvTmp" ∈
      specColumnsWithFlags ANALYSIS_REQUIREMENTS ["MonteCarloAEP"]
        {"reg_temperature"} "reanalysis" ∧
    pyLookup (colsMapOf ["MonteCarloAEP"]) "reanalysis" =
      some ((["WMETR_HorWdSpd", "WMETR_AirDen"] : List String).toFinset) ∧
    "WMETR_EnvTmp" ∉ ((["WMETR_HorWdSpd", "WMETR_AirDen"] : List String).toFinset) := by
  decide

/-- C1, as amended: for every non-empty list of valid catalog analysis names,
column resolution returns, for each family in the fixed category tuple,
exactly the union over the selected analyses of that analysis's mandatory
columns (omitted when empty), and nothing for any other family; conditional
columns are never included because the function takes no flag argument. -/
theorem claim_C1 (table : Requirements) (names : List String) (_hne : names ≠ [])
    (hval : ∀ n ∈ names, (pyLookup table n).isSome) :
    determine_analysis_requirements_over table "columns" names =
      .ok (.columnsRes (colsMapOver table names)) ∧
    (∀ cat ∈ categories,
      pyLookup (colsMapOver table names) cat =
        if specMandatoryUnion table names cat = ∅ then none
        else some (specMandatoryUnion table names cat)) ∧
    (∀ cat, cat ∉ categories → pyLookup (colsMapOver table names) cat = none) := by
  rcases determine_columns_run table names hval with ⟨D, hD, hrun, hproj, hkeys, hmem, hnd⟩
  have hcu : ∀ cat, colUnion D cat = specMandatoryUnion table names cat := by
    intro cat
    ext x
    rw [mem_colUnion, mem_specMandatoryUnion]
    constructor
    · rintro ⟨kv, hkv, hx⟩
      exact ⟨kv.1, (hkeys kv.1).mp (List.mem_map_of_mem Prod.fst hkv), kv.2, hmem kv hkv, hx⟩
    · rintro ⟨n, hn, entry, hentry, hx⟩
      rcases exists_of_mem_pyKeys ((hkeys n).mpr hn) with ⟨v, hv⟩
      have h2 : pyLookup table n = some v := hmem (n, v) hv
      have hve : v = entry := by
        rw [hentry] at h2
        exact (Option.some.inj h2).symm
      exact ⟨(n, entry), hve ▸ hv, hx⟩
  refine ⟨by rw [← hproj] at hrun; exact hrun, ?_, ?_⟩
  · intro cat hcat
    rw [hproj, pyLookup_columnRequirementsOf, hcu cat]
    by_cases h : specMandatoryUnion table names cat = ∅
    · simp [h]
    · simp [hcat, h]
  · intro cat hcat
    rw [hproj, pyLookup_columnRequirementsOf]
    simp [hcat]

/-- C1 witness: the amended column-resolution law at `["MonteCarloAEP"]`:
the run succeeds, the `"reanalysis"` entry is the mandatory union, and the
untouched `"status"` family is absent. -/
theorem claim_C1_witness :
    determine_analysis_requirements "columns" ["MonteCarloAEP"] =
      .ok (.columnsRes (colsMapOver ANALYSIS_REQUIREMENTS ["MonteCarloAEP"])) ∧
    pyLookup (colsMapOver ANALYSIS_REQUIREMENTS ["MonteCarloAEP"]) "reanalysis" =
      (if specMandatoryUnion ANALYSIS_REQUIREMENTS ["MonteCarloAEP"] "reanalysis" = ∅
       then none
       else some (specMandatoryUnion ANALYSIS_REQUIREMENTS ["MonteCarloAEP"] "reanalysis")) ∧
    pyLookup (colsMapOver ANALYSIS_REQUIREMENTS ["MonteCarloAEP"]) "status" = none :=
  ⟨(claim_C1 ANALYSIS_REQUIREMENTS ["MonteCarloAEP"] (by decide) (by decide)).1,
   (claim_C1 ANALYSIS_REQUIREMENTS ["MonteCarloAEP"] (by decide) (by decide)).2.1
     "reanalysis" (by decide),
   (claim_C1 ANALYSIS_REQUIREMENTS ["MonteCarloAEP"] (by decide) (by decide)).2.2
     "status" (by decide)⟩

/-- C5, confirmed: for valid non-empty analysis lists over any catalog table,
the column result never carries a family with an empty set (the filter drops
them), while the frequency result keeps exactly the touched families — a
family key is present iff some selected analysis touches it — always with a
seeded (`some`) set, and the resolver returns instead of raising; on the
demonstration catalog with disjoint accepted classes the conflicting family
is present with the empty set while an untouched family is absent. -/
theorem claim_C5 (table : Requirements) (names : List String) (_hne : names ≠ [])
    (hval : ∀ n ∈ names, (pyLookup table n).isSome) :
    (determine_analysis_requirements_over table "columns" names =
        .ok (.columnsRes (colsMapOver table names)) ∧
      ∀ kv ∈ colsMapOver table names, kv.2 ≠ ∅) ∧
    (determine_analysis_requirements_over table "frequency" names =
        .ok (.frequencyRes (freqMapOver table names)) ∧
      (∀ fam, fam ∈ pyKeys (freqMapOver table names) ↔
        ∃ n ∈ names, ∃ entry, pyLookup table n = some entry ∧ fam ∈ pyKeys entry) ∧
      ∀ kv ∈ freqMapOver table names, kv.2.isSome) ∧
    (freqMapOver demoDisjointTable ["DailyOnly", "MonthlyOnly"] =
        [("scada", some (∅ : Finset String))] ∧
      pyLookup (freqMapOver demoDisjointTable ["DailyOnly", "MonthlyOnly"]) "meter" =
        none) := by
  refine ⟨?_, ?_, by decide⟩
  · rcases determine_columns_run table names hval with ⟨D, hD, hrun, hproj, hkeys, hmem, hnd⟩
    refine ⟨by rw [← hproj] at hrun; exact hrun, ?_⟩
    intro kv hkv
    rw [hproj, columnRequirementsOf] at hkv
    exact of_decide_eq_true (List.mem_filter.mp hkv).2
  · rcases determine_frequency_run table names hval with
      ⟨D, hD, hrun, hFkeys, hFin, hFout, hkeys, hmem, hnd⟩
    have htouch : ∀ fam, fam ∈ touchedFamilies (famFreqs D) ↔
        ∃ n ∈ names, ∃ entry, pyLookup table n = some entry ∧ fam ∈ pyKeys entry := by
      intro fam
      rw [mem_touchedFamilies_famFreqs]
      constructor
      · rintro ⟨kv, hkv, hf⟩
        exact ⟨kv.1, (hkeys kv.1).mp (List.mem_map_of_mem Prod.fst hkv), kv.2,
          hmem kv hkv, hf⟩
      · rintro ⟨n, hn, entry, hentry, hf⟩
        rcases exists_of_mem_pyKeys ((hkeys n).mpr hn) with ⟨v, hv⟩
        have h2 : pyLookup table n = some v := hmem (n, v) hv
        have hve : v = entry := by
          rw [hentry] at h2
          exact (Option.some.inj h2).symm
        exact ⟨(n, entry), hve ▸ hv, hf⟩
    refine ⟨hrun, fun fam => by rw [hFkeys]; exact htouch fam, ?_⟩
    intro kv hkv
    have hknd : (pyKeys (freqMapOver table names)).Nodup := by
      rw [hFkeys]
      exact nodup_dedupFirst _
    have hk₁ : kv.1 ∈ touchedFamilies (famFreqs D) := by
      rw [← hFkeys]
      exact List.mem_map_of_mem Prod.fst hkv
    have hlv : pyLookup (freqMapOver table names) kv.1 = some kv.2 :=
      pyLookup_of_mem_nodup hknd (by cases kv; exact hkv)
    have hlv' := hFin kv.1 hk₁
    rw [hlv] at hlv'
    have hkv2 : kv.2 = combineFreq none (reqsFor (entriesAll (famFreqs D)) kv.1) :=
      Option.some.inj hlv'
    rw [hkv2]
    refine combineFreq_isSome_of_ne_nil (reqsFor_ne_nil_of_mem ?_) none
    rcases (mem_touchedFamilies _ kv.1).mp hk₁ with ⟨kv', hkv', hf⟩
    rcases exists_of_mem_pyKeys hf with ⟨v, hv⟩
    exact ⟨(kv.1, v),
      List.mem_flatten.mpr ⟨kv'.2, List.mem_map_of_mem _ hkv', hv⟩, rfl⟩

/-- C5 witness: the column and frequency structure at the concrete valid list
`["MonteCarloAEP", "ElectricalLosses"]` — the runs succeed, and the
touched-family law instantiated at `"meter"` — together with the concrete
disjoint-table demonstration. -/
theorem claim_C5_witness :
    determine_analysis_requirements "columns" ["MonteCarloAEP", "ElectricalLosses"] =
      .ok (.columnsRes (colsMapOver ANALYSIS_REQUIREMENTS
        ["MonteCarloAEP", "ElectricalLosses"])) ∧
    ("meter" ∈ pyKeys (freqMapOver ANALYSIS_REQUIREMENTS
        ["MonteCarloAEP", "ElectricalLosses"]) ↔
      ∃ n ∈ ["MonteCarloAEP", "ElectricalLosses"], ∃ entry,
        pyLookup ANALYSIS_REQUIREMENTS n = some entry ∧ "meter" ∈ pyKeys entry) ∧
    freqMapOver demoDisjointTable ["DailyOnly", "MonthlyOnly"] =
      [("scada", some (∅ : Finset String))] :=
  ⟨(claim_C5 ANALYSIS_REQUIREMENTS ["MonteCarloAEP", "ElectricalLosses"]
      (by decide) (by decide)).1.1,
   (claim_C5 ANALYSIS_REQUIREMENTS ["MonteCarloAEP", "ElectricalLosses"]
      (by decide) (by decide)).2.1.2.1 "meter",
   (claim_C5 ANALYSIS_REQUIREMENTS ["MonteCarloAEP", "ElectricalLosses"]
      (by decide) (by decide)).2.2.1⟩

/-- C7, confirmed: for every non-empty list of valid catalog analysis names
(no wildcard, which is automatic since `"all"` is not a catalog key), the
instance entry point `PlantMetaData.frequency_requirements` computes exactly
the same family-to-accepted-frequency-set mapping as the standalone
`determine_analysis_requirements("frequency", ...)` — the two runs are equal
up to the `ReqResult.frequencyRes` wrapper. -/
theorem claim_C7 (m : PlantMetaData) (names : List String) (_hne : names ≠ [])
    (hval : ∀ n ∈ names, (pyLookup ANALYSIS_REQUIREMENTS n).isSome) :
    determine_analysis_requirements "frequency" names =
      (m.frequency_requirements (names.map some)).map ReqResult.frequencyRes := by
  have hall : some "all" ∉ names.map some := by
    intro hc
    rcases List.mem_map.mp hc with ⟨n, hn, he⟩
    have hna : n = "all" := Option.some.inj he
    have := hval n hn
    rw [hna] at this
    have hnone : pyLookup ANALYSIS_REQUIREMENTS "all" = none := by decide
    rw [hnone] at this
    exact Bool.noConfusion this
  rcases buildRequirements_ok ANALYSIS_REQUIREMENTS names [] hval with ⟨D, hD, _, _, _⟩
  rcases freqRequirementsOf_ok D with ⟨F, hF, _, _, _⟩
  have hL : determine_analysis_requirements "frequency" names = .ok (.frequencyRes F) := by
    unfold determine_analysis_requirements determine_analysis_requirements_over
    rw [hD]
    show (match freqRequirementsOf D with
      | .error e => Except.error e
      | .ok f => Except.ok (ReqResult.frequencyRes f)) = _
    rw [hF]
  have hR : PlantMetaData.frequency_requirements m (names.map some) = .ok F := by
    unfold PlantMetaData.frequency_requirements
    rw [if_neg hall, buildRequirementsOpt_map_some, hD]
    show freqRequirementsOf D = _
    rw [hF]
  rw [hL, hR]
  rfl

/-- C7 witness: the two entry points agree at the concrete list
`["ElectricalLosses"]`. -/
theorem claim_C7_witness :
    determine_analysis_requirements "frequency" ["ElectricalLosses"] =
      (PlantMetaData.frequency_requirements {} [some "ElectricalLosses"]).map
        ReqResult.frequencyRes :=
  claim_C7 {} ["ElectricalLosses"] (by decide) (by decide)

/-- C8, confirmed: `PlantMetaData.load` checks the extension before the file
system — an unsupported suffix raises the spec's configuration error (the
builtin `ValueError` in the source) for both string and `Path` sources, a
supported suffix with no file at the path raises the spec's not-found error
(the builtin `FileExistsError`), and an unsupported source type raises the
configuration error as well. -/
theorem claim_C8 :
    (∀ (fs : FileSystem) (p : String),
      pathSuffix p ≠ ".json" → pathSuffix p ≠ ".yaml" → pathSuffix p ≠ ".yml" →
      PlantMetaData.load fs (.pathSrc p) =
        .error (.valueError
          "Bad input file extension, must be one of: .json, .yml, or .yaml") ∧
      PlantMetaData.load fs (.strSrc p) =
        .error (.valueError
          "Bad input file extension, must be one of: .json, .yml, or .yaml")) ∧
    (∀ (fs : FileSystem) (p : String),
      (pathSuffix p = ".json" ∨ pathSuffix p = ".yaml" ∨ pathSuffix p = ".yml") →
      fs p = none →
      PlantMetaData.load fs (.pathSrc p) = .error (.fileExistsError p) ∧
      PlantMetaData.load fs (.strSrc p) = .error (.fileExistsError p)) ∧
    (∀ fs : FileSystem,
      PlantMetaData.load fs .otherSrc =
        .error (.valueError
          "PlantMetaData can only be loaded from str, Path, or dict objects.")) := by
  refine ⟨?_, ?_, fun fs => rfl⟩
  · intro fs p h1 h2 h3
    have hload : loadPath fs p =
        .error (.valueError
          "Bad input file extension, must be one of: .json, .yml, or .yaml") := by
      unfold loadPath
      rw [if_neg h1, if_neg (not_or.mpr ⟨h2, h3⟩)]
    exact ⟨hload, hload⟩
  · intro fs p hsup hnone
    have hload : loadPath fs p = .error (.fileExistsError p) := by
      rcases hsup with h | h | h
      · unfold loadPath
        rw [if_pos h]
        unfold PlantMetaData.from_json
        rw [hnone]
      · unfold loadPath
        rw [if_neg (by rw [h]; decide), if_pos (Or.inl h)]
        unfold PlantMetaData.from_yaml
        rw [hnone]
      · unfold loadPath
        rw [if_neg (by rw [h]; decide), if_pos (Or.inr h)]
        unfold PlantMetaData.from_yaml
        rw [hnone]
    exact ⟨hload, hload⟩

/-- C8 witness: on an empty file system, the `.txt` path raises the
extension `ValueError`, the `.json` path raises `FileExistsError`, and the
unsupported source type raises the type `ValueError`. -/
theorem claim_C8_witness :
    PlantMetaData.load (fun _ => none) (.pathSrc "meta.txt") =
      .error (.valueError
        "Bad input file extension, must be one of: .json, .yml, or .yaml") ∧
    PlantMetaData.load (fun _ => none) (.pathSrc "meta.json") =
      .error (.fileExistsError "meta.json") ∧
    PlantMetaData.load (fun _ => none) .otherSrc =
      .error (.valueError
        "PlantMetaData can only be loaded from str, Path, or dict objects.") :=
  ⟨(claim_C8.1 (fun _ => none) "meta.txt" (by decide) (by decide) (by decide)).1,
   (claim_C8.2.1 (fun _ => none) "meta.json" (Or.inl (by decide)) rfl).1,
   claim_C8.2.2 (fun _ => none)⟩

theorem pyLookup_column_map_reanalysis (m : PlantMetaData) :
    pyLookup m.column_map "reanalysis" =
      some (if m.reanalysis = [] then ColMapVal.nested []
        else .nested (m.reanalysis.map fun kv => (kv.1, kv.2.col_map))) := rfl

/-- C9, corrected, counterexample: constructing from the empty mapping (no
`"reanalysis"` key) does not yield zero reanalysis products — the `attrs`
default `{"product": {}}` produces the single placeholder product
`"product"`, and `column_map`'s `"reanalysis"` entry is that product's
column dict, not the empty mapping. -/
theorem claim_C9_counterexample :
    (PlantMetaData.from_dict {}).reanalysis =
      [("product", ReanalysisMetaData.from_dict {})] ∧
    (PlantMetaData.from_dict {}).reanalysis ≠ [] ∧
    pyLookup (PlantMetaData.from_dict {}).column_map "reanalysis" =
      some (.nested [("product", (ReanalysisMetaData.from_dict {}).col_map)]) ∧
    ColMapVal.nested [("product", (ReanalysisMetaData.from_dict {}).col_map)] ≠
      .nested [] := by
  refine ⟨rfl, by decide, rfl, by decide⟩

/-- C9, as amended: an input mapping without a `"reanalysis"` key yields the
default placeholder collection holding the single all-default product
`"product"` (mirrored in `column_map`); zero reanalysis products arise
exactly when the input supplies an explicit empty mapping for
`"reanalysis"`, in which case `column_map`'s entry is the empty mapping. -/
theorem claim_C9 :
    (∀ d : PlantInput, d.reanalysis = none →
      (PlantMetaData.from_dict d).reanalysis =
        [("product", ReanalysisMetaData.from_dict {})] ∧
      pyLookup (PlantMetaData.from_dict d).column_map "reanalysis" =
        some (.nested [("product", (ReanalysisMetaData.from_dict {}).col_map)])) ∧
    (∀ d : PlantInput, d.reanalysis = some [] →
      (PlantMetaData.from_dict d).reanalysis = [] ∧
      pyLookup (PlantMetaData.from_dict d).column_map "reanalysis" =
        some (.nested [])) := by
  constructor
  · intro d hd
    have h1 : (PlantMetaData.from_dict d).reanalysis =
        [("product", ReanalysisMetaData.from_dict {})] := by
      simp [PlantMetaData.from_dict, hd, convert_reanalysis]
    refine ⟨h1, ?_⟩
    rw [pyLookup_column_map_reanalysis, h1, if_neg (by decide)]
    rfl
  · intro d hd
    have h1 : (PlantMetaData.from_dict d).reanalysis = [] := by
      simp [PlantMetaData.from_dict, hd, convert_reanalysis]
    refine ⟨h1, ?_⟩
    rw [pyLookup_column_map_reanalysis, h1, if_pos rfl]

/-- C9 witness: the amended behaviour at the two concrete inputs — the empty
mapping yields the placeholder product, an explicit empty reanalysis mapping
yields zero products. -/
theorem claim_C9_witness :
    (PlantMetaData.from_dict {}).reanalysis =
      [("product", ReanalysisMetaData.from_dict {})] ∧
    (PlantMetaData.from_dict { reanalysis := some [] }).reanalysis = [] :=
  ⟨(claim_C9.1 {} rfl).1, (claim_C9.2 { reanalysis := some [] } rfl).1⟩

theorem foldl_pyInsert_append {V : Type} :
    ∀ (pairs acc : List (String × V)),
      (pyKeys pairs).Nodup → (∀ k ∈ pyKeys pairs, k ∉ pyKeys acc) →
      pairs.foldl (fun d kv => pyInsert d kv.1 kv.2) acc = acc ++ pairs := by
  intro pairs
  induction pairs with
  | nil =>
    intro acc _ _
    simp
  | cons kv rest ih =>
    intro acc hnd hdis
    obtain ⟨k, v⟩ := kv
    have hk_not : k ∉ pyKeys acc := hdis k (by simp [pyKeys])
    have hnd' : k ∉ pyKeys rest ∧ (pyKeys rest).Nodup := by
      simpa [pyKeys] using hnd
    rw [List.foldl_cons]
    show rest.foldl (fun d kv => pyInsert d kv.1 kv.2) (pyInsert acc k v) = _
    rw [pyInsert_eq_append_of_not_mem v hk_not, ih (acc ++ [(k, v)]) hnd'.2 ?_]
    · simp
    · intro k' hk'
      have hk'cons : k' ∈ pyKeys ((k, v) :: rest) := by
        show k' ∈ k :: pyKeys rest
        exact List.mem_cons_of_mem _ hk'
      have h1 : k' ∉ pyKeys acc := hdis k' hk'cons
      have h2 : k' ≠ k := by
        intro hc
        exact hnd'.1 (hc ▸ hk')
      have happ : pyKeys (acc ++ [(k, v)]) = pyKeys acc ++ [k] := by
        simp [pyKeys]
      rw [happ, List.mem_append]
      rintro (hc | hc)
      · exact h1 hc
      · simp at hc
        exact h2 hc

/-- C10, confirmed: whenever the nine actual column names of a
`SCADAMetaData` (the eight caller-overridable fields plus the fixed
`WTUR_SupWh`) are pairwise distinct, `col_map_reversed` is the exact
two-sided inverse of `col_map` — composing the two lookups is the identity
in both directions — while a configuration mapping two semantic fields to
one actual name still constructs, its reversed map keeping only the
last-inserted semantic field (`WMET_EnvTmp` wins over the earlier `WTUR_W`)
and holding a single entry for the duplicated name. -/
theorem claim_C10 (m : SCADAMetaData)
    (h : (m.col_map.map fun kv => kv.2).Nodup) :
    (∀ kv ∈ m.col_map,
      pyLookup m.col_map_reversed kv.2 = some kv.1 ∧
      pyLookup m.col_map kv.1 = some kv.2) ∧
    pyLookup dupSCADA.col_map_reversed "dup" = some "WMET_EnvTmp" ∧
    ("dup", "WTUR_W") ∉ dupSCADA.col_map_reversed ∧
    (dupSCADA.col_map_reversed.filter fun kv => decide (kv.1 = "dup")).length = 1 := by
  have hkeysrev : pyKeys (m.col_map.map fun kv => (kv.2, kv.1)) =
      m.col_map.map fun kv => kv.2 := rfl
  have hrev : m.col_map_reversed = m.col_map.map fun kv => (kv.2, kv.1) := by
    unfold SCADAMetaData.col_map_reversed pyDictOf
    rw [foldl_pyInsert_append _ [] (by rw [hkeysrev]; exact h) ?_]
    · simp
    · intro k _
      simp [pyKeys]
  have hkeyscm : pyKeys m.col_map =
      ["time", "asset_id", "WTUR_W", "WMET_HorWdSpd", "WMET_HorWdDir", "WTUR_TurSt",
       "WROT_BlPthAngVal", "WMET_EnvTmp", "WTUR_SupWh"] := rfl
  refine ⟨?_, by decide, by decide, by decide⟩
  intro kv hkv
  constructor
  · rw [hrev]
    exact pyLookup_of_mem_nodup (by rw [hkeysrev]; exact h)
      (List.mem_map_of_mem _ hkv)
  · exact pyLookup_of_mem_nodup (by rw [hkeyscm]; decide) hkv

/-- C10 witness: at the all-default `SCADAMetaData`, whose nine actual column
names are pairwise distinct, the two lookups invert each other at concrete
fields. -/
theorem claim_C10_witness :
    pyLookup (SCADAMetaData.col_map_reversed {}) "WTUR_W" = some "WTUR_W" ∧
    pyLookup (SCADAMetaData.col_map {}) "time" = some "time" :=
  ⟨((claim_C10 {} (by decide)).1 ("WTUR_W", "WTUR_W") (by decide)).1,
   ((claim_C10 {} (by decide)).1 ("time", "time") (by decide)).2⟩
